import Mathlib

/-!
Shallow embedding of the Scan Orchestration Engine of the Enterprise-Grade
IDR repository (React + TypeScript).  The source files embedded here are
`src/components/Scanner.tsx` (queue, orchestrator, progress simulator),
`src/services/geminiService.ts` (provider adapter: `analyzeFile`,
`checkKnownVulnerabilities`) and `src/App.tsx` (aggregate statistics,
`addScanToHistory`).

Modelling conventions:
* The `types.ts` module is not part of the provided sources; the enums and
  record shapes below are reconstructed from their uses in `Scanner.tsx`,
  `geminiService.ts`, `App.tsx` and the data model of the specification.
* JavaScript numbers are modelled as `ℚ` (file sizes as `ℕ`).
* Asynchronous external effects (the Gemini client construction, the
  pre-analysis hashing, the `generateContent` calls) are modelled by
  explicit outcome parameters of type `Except String _`: each parameter is
  the resolution or rejection of the corresponding `await` in the source.
* A full asynchronous run of `startScan` is modelled as a function of the
  initial state and these outcomes; the progress-simulator interval is
  accounted for by explicit tick counts (`n1`, `n2`) applied at the two
  suspension points of the flow.  Fields of `ScanResult` that are pure
  diagnostic pass-through in the source (`metadata`, `hexDump`,
  `asciiDump`) and are not mentioned by any claim are omitted.
-/

namespace IDR

/-- Lifecycle status of a queued file, from the `ScanStatus` enum used in
`Scanner.tsx` (`IDLE`, `SCANNING`, `ANALYZING`, `COMPLETED`, `ERROR`). -/
inductive ScanStatus where
  | idle
  | scanning
  | analyzing
  | completed
  | error
deriving DecidableEq

/-- Threat verdict levels, from the `ThreatLevel` enum used in
`geminiService.ts` (`SAFE`, `SUSPICIOUS`, `MALICIOUS`, `UNKNOWN`). -/
inductive ThreatLevel where
  | safe
  | suspicious
  | malicious
  | unknown
deriving DecidableEq

/-- Scan depth options, from `ScanOptions.scanDepth` in `Scanner.tsx`. -/
inductive ScanDepth where
  | quick
  | balanced
  | deep
deriving DecidableEq

/-- Advanced scan options, from the `scanOptions` state in `Scanner.tsx`. -/
structure ScanOptions where
  scanDepth : ScanDepth
  enableHeuristics : Bool
  enableSignatures : Bool
  sensitivityThreshold : ℚ
deriving DecidableEq

/-- The parts of a browser `File` handle the engine reads (`file.name`,
`file.size`, `file.type`). -/
structure FileMeta where
  name : String
  size : ℕ
  ftype : String
deriving DecidableEq

/-- Terminal verdict for one file, from the `ScanResult` shape constructed
in `geminiService.ts` and consumed in `Scanner.tsx` / `App.tsx`.
`cveMatches` is `Option`al: `none` models the field being absent on the
JavaScript object, `some l` models it being present with value `l`. -/
structure ScanResult where
  fileName : String
  fileHash : String
  threatLevel : ThreatLevel
  summary : String
  vulnerabilities : List String
  confidenceScore : ℚ
  technicalDetails : String
  cveMatches : Option (List String)
deriving DecidableEq

/-- One entry of the scan queue, from the `FileQueueItem` shape used in
`Scanner.tsx`. -/
structure FileQueueItem where
  id : String
  file : FileMeta
  status : ScanStatus
  progress : ℚ
  eta : Option ℚ
  result : Option ScanResult
deriving DecidableEq

/-- `processFiles` in `Scanner.tsx` creates one `idle` item per dropped
file (random id, `progress = 0`, `eta = undefined`) and prepends the batch
to the queue.  Ids are passed explicitly here in place of
`Math.random().toString(36).substring(7)`. -/
def newQueueItem (id : String) (file : FileMeta) : FileQueueItem :=
  { id := id, file := file, status := ScanStatus.idle, progress := 0,
    eta := none, result := none }

/-- The queue update performed by `processFiles`:
`setQueue(prev => [...newItems, ...prev])`. -/
def processFiles (newFiles : List (String × FileMeta))
    (queue : List FileQueueItem) : List FileQueueItem :=
  (newFiles.map fun p => newQueueItem p.1 p.2) ++ queue

/-- `updateItemStatus` in `Scanner.tsx`: maps over the queue and replaces
the `status`, `progress`, `result` and `eta` fields of every item whose id
matches (the source spread `{ ...item, status, progress, result, eta }`
always writes all four fields, `undefined` included). -/
def updateItemStatus (queue : List FileQueueItem) (id : String)
    (status : ScanStatus) (progress : ℚ) (result : Option ScanResult)
    (eta : Option ℚ) : List FileQueueItem :=
  queue.map fun item =>
    if item.id = id then
      { item with status := status, progress := progress, result := result,
                  eta := eta }
    else item

/-! ## Provider adapter (`src/services/geminiService.ts`) -/

/-- Shape of the JSON object produced by the provider under the
`responseSchema` declared in `analyzeFile`: `threatLevel`, `summary`,
`vulnerabilities`, `confidenceScore`, `technicalDetails` are `required`;
`cveMatches` is a declared property that is not required, so it may or may
not be present on the parsed object. -/
structure ProviderJson where
  threatLevel : ThreatLevel
  summary : String
  vulnerabilities : List String
  confidenceScore : ℚ
  technicalDetails : String
  cveMatches : Option (List String)
deriving DecidableEq

/-- The `ScanResult` built in the `catch` block of `analyzeFile`:
`threatLevel: UNKNOWN`, `confidenceScore: 0`, empty `vulnerabilities` and
`cveMatches: []` (an empty array is attached, not an absent field). -/
def fallbackResult (file : FileMeta) (fileHash : String) (errMsg : String) :
    ScanResult :=
  { fileName := file.name
    fileHash := fileHash
    threatLevel := ThreatLevel.unknown
    summary := "Analysis failed due to processing error."
    vulnerabilities := []
    confidenceScore := 0
    technicalDetails :=
      "Error communicating with AI engine or processing file: " ++ errMsg
    cveMatches := some ([] : List String) }

/-- `analyzeFile` in `geminiService.ts`.  `clientOk` is whether
`getAiClient()` succeeds (it throws when no API key is configured);
`preOutcome` is the resolution of the pre-`try` hashing / header-read steps
(`computeFileHash`, `readFileHead`), carrying the file hash on success;
`tryOutcome` is the resolution of the effectful steps inside the `try`
block (file reads, `generateContent`, `JSON.parse`), carrying the parsed
provider JSON on success.  `getAiClient()` and the pre-computation run
before the `try`, so their failures reject the returned promise; any
failure inside the `try` resolves with `fallbackResult`.  On success the
parsed object is spread and then `fileName` / `fileHash` are overwritten
from the local file data, with `cveMatches` passed through untouched. -/
def analyzeFile (clientOk : Bool) (preOutcome : Except String String)
    (tryOutcome : Except String ProviderJson) (file : FileMeta) :
    Except String ScanResult :=
  if clientOk = false then Except.error "API Key not found"
  else
    match preOutcome with
    | Except.error e => Except.error e
    | Except.ok fileHash =>
      match tryOutcome with
      | Except.error e => Except.ok (fallbackResult file fileHash e)
      | Except.ok json =>
        Except.ok
          { fileName := file.name
            fileHash := fileHash
            threatLevel := json.threatLevel
            summary := json.summary
            vulnerabilities := json.vulnerabilities
            confidenceScore := json.confidenceScore
            technicalDetails := json.technicalDetails
            cveMatches := json.cveMatches }

/-- `checkKnownVulnerabilities` in `geminiService.ts`.  `getAiClient()` is
called before the `try`, so a missing API key rejects; any failure of the
grounded `generateContent` call is caught and resolved as `[]`
(`searchOutcome` is that call's resolution, carrying the extracted link
list on success). -/
def checkKnownVulnerabilities (clientOk : Bool)
    (searchOutcome : Except String (List String)) :
    Except String (List String) :=
  if clientOk = false then Except.error "API Key not found"
  else
    match searchOutcome with
    | Except.error _ => Except.ok ([] : List String)
    | Except.ok links => Except.ok links

/-! ## Aggregate statistics (`src/App.tsx`) -/

/-- The `stats` state of `App.tsx`: `{ scanned, threats, health }`. -/
structure AppStats where
  scanned : ℕ
  threats : ℕ
  health : ℚ
deriving DecidableEq

/-- Initial statistics: `{ scanned: 0, threats: 0, health: 100 }`. -/
def initialStats : AppStats := { scanned := 0, threats := 0, health := 100 }

/-- Rounding to one decimal place, modelling
`parseFloat(newHealth.toFixed(1))` (the argument is non-negative at the
call site, where ties round half away from zero, i.e. half up). -/
def roundTenth (x : ℚ) : ℚ := ((round (x * 10) : ℤ) : ℚ) / 10

/-- The statistics update inside `addScanToHistory` in `App.tsx`. -/
def recordStats (prev : AppStats) (result : ScanResult) : AppStats :=
  let newScanned := prev.scanned + 1
  let newThreats :=
    if result.threatLevel = ThreatLevel.safe then prev.threats
    else prev.threats + 1
  let newHealth :=
    max 0 (100 - ((newThreats : ℚ) / (newScanned : ℚ)) * 100)
  { scanned := newScanned, threats := newThreats,
    health := roundTenth newHealth }

/-- `addScanToHistory` in `App.tsx`: prepends the result to the history
and updates the statistics. -/
def addScanToHistory (history : List ScanResult) (stats : AppStats)
    (result : ScanResult) : List ScanResult × AppStats :=
  (result :: history, recordStats stats result)

/-! ## Orchestrator (`src/components/Scanner.tsx`) -/

/-- Base duration selected by scan depth in `startScan`:
`baseTime = 15`, overwritten to `5` for `quick` and `45` for `deep`. -/
def baseTimeFor (depth : ScanDepth) : ℚ :=
  match depth with
  | ScanDepth.quick => 5
  | ScanDepth.balanced => 15
  | ScanDepth.deep => 45

/-- `initialEta` in `startScan`:
`item.file.size > 2 * 1024 * 1024 ? baseTime * 2 : baseTime`. -/
def initialEta (opts : ScanOptions) (file : FileMeta) : ℚ :=
  if file.size > 2 * 1024 * 1024 then baseTimeFor opts.scanDepth * 2
  else baseTimeFor opts.scanDepth

/-- One tick of the progress-simulation interval, acting on the closure
variables `(currentProgress, currentEta)`:
`currentProgress += (90 - currentProgress) * 0.05`;
`currentEta -= 0.5; if (currentEta < 2) currentEta = 2`. -/
def simTick (pe : ℚ × ℚ) : ℚ × ℚ :=
  (pe.1 + (90 - pe.1) * (5 / 100), max (pe.2 - 1 / 2) 2)

/-- The queue write performed by each interval tick: the matched item gets
`progress = currentProgress` and `eta = Math.ceil(currentEta)`. -/
def simTickQueue (queue : List FileQueueItem) (id : String) (pe : ℚ × ℚ) :
    List FileQueueItem :=
  queue.map fun qItem =>
    if qItem.id = id then
      { qItem with progress := pe.1, eta := some ((⌈pe.2⌉ : ℤ) : ℚ) }
    else qItem

/-- `n` interval ticks: each advances the closure pair with `simTick` and
writes it into the queue with `simTickQueue`. -/
def runTicks : ℕ → List FileQueueItem × (ℚ × ℚ) → String →
    List FileQueueItem × (ℚ × ℚ)
  | 0, s, _ => s
  | Nat.succ n, (q, pe), id =>
      let pe2 := simTick pe
      runTicks n (simTickQueue q id pe2, pe2) id

/-- The queue write at the end of the pre-processing delay: only the
`status` field of the matched item is set to `ANALYZING`. -/
def setAnalyzing (queue : List FileQueueItem) (id : String) :
    List FileQueueItem :=
  queue.map fun qItem =>
    if qItem.id = id then { qItem with status := ScanStatus.analyzing }
    else qItem

/-- Correlation query derived in `startScan`: the first vulnerability
string when present, else `` `${result.fileName} vulnerabilities` ``. -/
def searchQueries (result : ScanResult) : String :=
  match result.vulnerabilities with
  | [] => result.fileName ++ " vulnerabilities"
  | v :: _ => v

/-- The enrichment branch of `startScan`: when the verdict is not `SAFE`,
`checkKnownVulnerabilities` is awaited (a rejection there lands in the
orchestrator's `catch`), and its links are written to `result.cveMatches`
only when `cveLinks.length > 0`. -/
def enrichResult (clientOk : Bool)
    (searchOutcome : Except String (List String)) (result : ScanResult) :
    Except String ScanResult :=
  if result.threatLevel = ThreatLevel.safe then Except.ok result
  else
    match checkKnownVulnerabilities clientOk searchOutcome with
    | Except.error e => Except.error e
    | Except.ok cveLinks =>
        if cveLinks.length > 0 then
          Except.ok { result with cveMatches := some cveLinks }
        else Except.ok result

/-- Success notification text in `startScan`. -/
def successMessage (file : FileMeta) : String :=
  "Scan report for \"" ++ file.name ++ "\" sent to admin."

/-- Failure notification text in `startScan`. -/
def failureMessage (file : FileMeta) : String :=
  "Scan failed for \"" ++ file.name ++ "\"."

/-- The mutable state the Scanner / App pair owns: the queue and
`activeScanId` from `Scanner.tsx`, the emitted toast messages (most recent
first), and the scan history plus aggregate statistics from `App.tsx`. -/
structure ScannerState where
  queue : List FileQueueItem
  activeScanId : Option String
  notifications : List String
  history : List ScanResult
  stats : AppStats
deriving DecidableEq

/-- `queue.find(i => i.id === id)` as used at the top of `startScan`. -/
def getItem (st : ScannerState) (id : String) : Option FileQueueItem :=
  st.queue.find? fun i => i.id == id

/-- Number of queue items whose status is `scanning` or `analyzing` (the
quantity bounded by the global single-concurrency invariant). -/
def activeCount (queue : List FileQueueItem) : ℕ :=
  (queue.filter fun i =>
    i.status == ScanStatus.scanning || i.status == ScanStatus.analyzing).length

/-- The synchronous prefix of `startScan(id)`: everything that runs before
the first `await` — the lookup, the guard
`if (!item || item.status === ScanStatus.SCANNING) return;`,
`setActiveScanId(id)`, and the transition of the item to `SCANNING` with
`progress = 0` and `eta = initialEta`. -/
def startScanSync (st : ScannerState) (id : String) (opts : ScanOptions) :
    ScannerState :=
  match getItem st id with
  | none => st
  | some item =>
    if item.status = ScanStatus.scanning then st
    else
      { st with
          activeScanId := some id
          queue := updateItemStatus st.queue id ScanStatus.scanning 0 none
                     (some (initialEta opts item.file)) }

/-- The queue as transformed between the start of a scan and its terminal
write: the item is set to `SCANNING` with `progress = 0`,
`eta = initialEta`; `n1` interval ticks fire during the pre-processing
delay; the item is set to `ANALYZING`; `n2` further ticks fire while the
provider call is pending. -/
def midQueue (q : List FileQueueItem) (id : String) (eta0 : ℚ)
    (n1 n2 : ℕ) : List FileQueueItem :=
  let q1 := updateItemStatus q id ScanStatus.scanning 0 none (some eta0)
  let t1 := runTicks n1 (q1, (0, eta0)) id
  (runTicks n2 (setAnalyzing t1.1 id, t1.2) id).1

/-- A complete sequential run of `startScan(id)` in `Scanner.tsx`,
parameterised by the external outcomes (see `analyzeFile`,
`checkKnownVulnerabilities`) and by the number of simulator ticks firing
during the pre-processing delay (`n1`) and during the provider call
(`n2`).  On success: item to `COMPLETED, 100, result, 0`,
`addScanToHistory(result)`, then a success toast when `emailNotifications`
is on.  On any rejection inside the `try`: item to `ERROR, 0, undefined, 0`
and a failure toast.  `finally` clears `activeScanId`.  (The write
`currentProgress = 92` before the correlation lookup only feeds later
ticks, which are themselves overwritten by the terminal update, so it is
not threaded further.) -/
def startScan (st : ScannerState) (id : String) (opts : ScanOptions)
    (emailNotifications : Bool) (clientOk : Bool)
    (preOutcome : Except String String)
    (tryOutcome : Except String ProviderJson)
    (searchOutcome : Except String (List String)) (n1 n2 : ℕ) :
    ScannerState :=
  match getItem st id with
  | none => st
  | some item =>
    if item.status = ScanStatus.scanning then st
    else
      let q3 := midQueue st.queue id (initialEta opts item.file) n1 n2
      match analyzeFile clientOk preOutcome tryOutcome item.file with
      | Except.error _ =>
          { queue := updateItemStatus q3 id ScanStatus.error 0 none
                       (some 0)
            activeScanId := none
            notifications := failureMessage item.file :: st.notifications
            history := st.history
            stats := st.stats }
      | Except.ok result0 =>
          match enrichResult clientOk searchOutcome result0 with
          | Except.error _ =>
              { queue := updateItemStatus q3 id ScanStatus.error 0 none
                           (some 0)
                activeScanId := none
                notifications := failureMessage item.file :: st.notifications
                history := st.history
                stats := st.stats }
          | Except.ok result =>
              { queue := updateItemStatus q3 id ScanStatus.completed 100
                           (some result) (some 0)
                activeScanId := none
                notifications :=
                  if emailNotifications then
                    successMessage item.file :: st.notifications
                  else st.notifications
                history := result :: st.history
                stats := recordStats st.stats result }

/-! ## Concrete fixtures used by witnesses and counterexamples -/

/-- A small submitted file (well under the 2 MiB threshold). -/
def fileAlpha : FileMeta :=
  { name := "alpha.bin", size := 100, ftype := "application/octet-stream" }

/-- A second small submitted file. -/
def fileBeta : FileMeta :=
  { name := "beta.bin", size := 200, ftype := "application/octet-stream" }

/-- A 3 MiB file (the scenario of the initial-eta claim). -/
def fileBig3MiB : FileMeta :=
  { name := "payload.bin", size := 3 * 1024 * 1024,
    ftype := "application/octet-stream" }

/-- The default advanced options of `Scanner.tsx`. -/
def optsBalanced : ScanOptions :=
  { scanDepth := ScanDepth.balanced, enableHeuristics := true,
    enableSignatures := true, sensitivityThreshold := 50 }

/-- Options with `scanDepth: 'deep'`. -/
def optsDeep : ScanOptions :=
  { scanDepth := ScanDepth.deep, enableHeuristics := true,
    enableSignatures := true, sensitivityThreshold := 50 }

/-- A provider verdict flagging the file as malicious, with no
vulnerability strings and no `cveMatches` property. -/
def jsonMal : ProviderJson :=
  { threatLevel := ThreatLevel.malicious, summary := "malware detected",
    vulnerabilities := [], confidenceScore := 95,
    technicalDetails := "embedded shellcode", cveMatches := none }

/-- A provider verdict declaring the file safe, without `cveMatches`. -/
def jsonSafe : ProviderJson :=
  { threatLevel := ThreatLevel.safe, summary := "clean",
    vulnerabilities := [], confidenceScore := 99,
    technicalDetails := "no findings", cveMatches := none }

/-- A schema-conforming provider verdict declaring the file safe while
also carrying a `cveMatches` property (the `responseSchema` in
`analyzeFile` declares `cveMatches` as an allowed, non-required
property, so the parsed JSON may contain it alongside any threat
level). -/
def jsonSafeCve : ProviderJson :=
  { threatLevel := ThreatLevel.safe, summary := "clean",
    vulnerabilities := [], confidenceScore := 99,
    technicalDetails := "no findings",
    cveMatches := some ["https://nvd.example/CVE-2024-0001"] }

/-- A completed malicious scan result (used for the statistics claim). -/
def malRes : ScanResult :=
  { fileName := "mal.bin", fileHash := "deadbeef",
    threatLevel := ThreatLevel.malicious, summary := "malware",
    vulnerabilities := ["CVE-2024-0001"], confidenceScore := 90,
    technicalDetails := "td", cveMatches := none }

/-- A state holding one idle queued item with id `"idA"`. -/
def stOne : ScannerState :=
  { queue := [newQueueItem "idA" fileAlpha], activeScanId := none,
    notifications := [], history := [], stats := initialStats }

/-- A state whose single item `"idA"` is currently in `SCANNING`. -/
def stScanning : ScannerState :=
  { queue := [{ id := "idA", file := fileAlpha,
                status := ScanStatus.scanning, progress := 10,
                eta := some 12, result := none }],
    activeScanId := some "idA", notifications := [], history := [],
    stats := initialStats }

/-- Two files submitted through `processFiles`, both idle. -/
def stTwo : ScannerState :=
  { queue := processFiles [("idA", fileAlpha), ("idB", fileBeta)] [],
    activeScanId := none, notifications := [], history := [],
    stats := initialStats }

/-- `stTwo` after the synchronous prefix of `startScan("idA")`: item
`"idA"` is `SCANNING` and `"idA"` holds the active-scan slot. -/
def stAfterA : ScannerState := startScanSync stTwo "idA" optsBalanced

/-- The `ScanResult` `analyzeFile` produces from `jsonMal` for
`fileAlpha` with hash `"cafe"`. -/
def malScanRes : ScanResult :=
  { fileName := "alpha.bin", fileHash := "cafe",
    threatLevel := ThreatLevel.malicious, summary := "malware detected",
    vulnerabilities := [], confidenceScore := 95,
    technicalDetails := "embedded shellcode", cveMatches := none }

/-- The `ScanResult` `analyzeFile` produces from `jsonSafe` for
`fileAlpha` with hash `"cafe"`. -/
def safeScanRes : ScanResult :=
  { fileName := "alpha.bin", fileHash := "cafe",
    threatLevel := ThreatLevel.safe, summary := "clean",
    vulnerabilities := [], confidenceScore := 99,
    technicalDetails := "no findings", cveMatches := none }

/-! ## Helper lemmas -/

theorem find?_map_of_id_eq (f : FileQueueItem → FileQueueItem)
    (hf : ∀ it, (f it).id = it.id) (q : List FileQueueItem) (id0 : String) :
    (q.map f).find? (fun i => i.id == id0) =
      (q.find? (fun i => i.id == id0)).map f := by
  induction q with
  | nil => rfl
  | cons a t ih =>
    have hcond : ((f a).id == id0) = (a.id == id0) := by rw [hf]
    cases h : (a.id == id0) with
    | true => simp [List.find?_cons, hcond, h]
    | false => simp [List.find?_cons, hcond, h, ih]

theorem find?_updateItemStatus (q : List FileQueueItem) (id : String)
    (s : ScanStatus) (p : ℚ) (r : Option ScanResult) (e : Option ℚ)
    (id0 : String) :
    (updateItemStatus q id s p r e).find? (fun i => i.id == id0) =
      (q.find? (fun i => i.id == id0)).map fun it =>
        if it.id = id then
          { it with status := s, progress := p, result := r, eta := e }
        else it := by
  apply find?_map_of_id_eq
  intro it
  by_cases h : it.id = id <;> simp [h]

theorem find?_setAnalyzing (q : List FileQueueItem) (id id0 : String) :
    (setAnalyzing q id).find? (fun i => i.id == id0) =
      (q.find? (fun i => i.id == id0)).map fun it =>
        if it.id = id then { it with status := ScanStatus.analyzing }
        else it := by
  apply find?_map_of_id_eq
  intro it
  by_cases h : it.id = id <;> simp [h]

theorem find?_simTickQueue (q : List FileQueueItem) (id : String)
    (pe : ℚ × ℚ) (id0 : String) :
    (simTickQueue q id pe).find? (fun i => i.id == id0) =
      (q.find? (fun i => i.id == id0)).map fun it =>
        if it.id = id then
          { it with progress := pe.1, eta := some ((⌈pe.2⌉ : ℤ) : ℚ) }
        else it := by
  apply find?_map_of_id_eq
  intro it
  by_cases h : it.id = id <;> simp [h]

theorem isSome_find?_runTicks (n : ℕ) :
    ∀ (q : List FileQueueItem) (pe : ℚ × ℚ) (id id0 : String),
    (((runTicks n (q, pe) id).1).find? (fun i => i.id == id0)).isSome =
      ((q.find? (fun i => i.id == id0))).isSome := by
  induction n with
  | zero => intro q pe id id0; rfl
  | succ n ih =>
    intro q pe id id0
    have hstep : runTicks (n + 1) (q, pe) id =
        runTicks n (simTickQueue q id (simTick pe), simTick pe) id := rfl
    rw [hstep, ih, find?_simTickQueue]
    cases q.find? (fun i => i.id == id0) <;> rfl

theorem isSome_find?_midQueue (q : List FileQueueItem) (id : String)
    (eta0 : ℚ) (n1 n2 : ℕ) (id0 : String) :
    ((midQueue q id eta0 n1 n2).find? (fun i => i.id == id0)).isSome =
      (q.find? (fun i => i.id == id0)).isSome := by
  unfold midQueue
  rw [isSome_find?_runTicks, find?_setAnalyzing]
  rw [show ∀ o : Option FileQueueItem, ((o.map fun it =>
        if it.id = id then { it with status := ScanStatus.analyzing }
        else it).isSome) = o.isSome from by intro o; cases o <;> rfl]
  rw [isSome_find?_runTicks, find?_updateItemStatus]
  cases q.find? (fun i => i.id == id0) <;> rfl

theorem find?_terminal (q3 : List FileQueueItem) (id : String)
    (y : FileQueueItem) (hy : q3.find? (fun i => i.id == id) = some y)
    (s : ScanStatus) (p : ℚ) (r : Option ScanResult) (e : Option ℚ) :
    (updateItemStatus q3 id s p r e).find? (fun i => i.id == id) =
      some { y with status := s, progress := p, result := r, eta := e } := by
  have hid : y.id = id := by
    have := List.find?_some hy
    simpa using this
  rw [find?_updateItemStatus, hy]
  simp [hid]

theorem analyzeFile_ok_clientOk (clientOk : Bool)
    (preOutcome : Except String String)
    (tryOutcome : Except String ProviderJson) (file : FileMeta)
    (r : ScanResult)
    (h : analyzeFile clientOk preOutcome tryOutcome file = Except.ok r) :
    clientOk = true := by
  cases clientOk with
  | true => rfl
  | false => simp [analyzeFile] at h

theorem enrichResult_threatLevel (clientOk : Bool)
    (searchOutcome : Except String (List String)) (r r2 : ScanResult)
    (h : enrichResult clientOk searchOutcome r = Except.ok r2) :
    r2.threatLevel = r.threatLevel := by
  unfold enrichResult at h
  by_cases hsafe : r.threatLevel = ThreatLevel.safe
  · simp [hsafe] at h
    rw [← h]
  · simp only [hsafe, if_false] at h
    cases hc : checkKnownVulnerabilities clientOk searchOutcome with
    | error e => rw [hc] at h; exact absurd h (by simp)
    | ok links =>
      rw [hc] at h
      by_cases hl : links.length > 0 <;> simp [hl] at h <;> rw [← h]

theorem checkKnown_ok_of_clientOk
    (searchOutcome : Except String (List String)) :
    (checkKnownVulnerabilities true searchOutcome = Except.ok
        (match searchOutcome with
         | Except.error _ => ([] : List String)
         | Except.ok links => links)) := by
  cases searchOutcome <;> rfl

/-! ## Claims -/

/-- C1 (counterexample).  The claim asserts that the orchestrator itself
refuses to start a second scan while any scan is active.  It does not: the
guard in `startScan` only rejects when the target item is missing or is
itself already `SCANNING`.  Concretely, with items `"idA"` and `"idB"`
queued and `"idA"` already transitioned to `SCANNING` (one active item,
active-scan slot held by `"idA"`), invoking `startScan("idB")` during
`startScan("idA")`'s first suspension passes the guard, and its
synchronous prefix leaves two items with status `SCANNING` — the
single-concurrency invariant is violated and the orchestrator did not
refuse. -/
theorem claim1_counterexample :
    activeCount stAfterA.queue = 1 ∧ stAfterA.activeScanId = some "idA" ∧
    startScanSync stAfterA "idB" optsBalanced ≠ stAfterA ∧
    activeCount (startScanSync stAfterA "idB" optsBalanced).queue = 2 := by
  refine ⟨rfl, rfl, ?_, rfl⟩
  decide

/-- C1 (amended).  The orchestrator's guard in `startScan` is only
per-item: whenever the target id resolves to an item whose status is not
`SCANNING`, the call proceeds — it claims the active-scan slot and moves
that item to `SCANNING` — regardless of whether any other item is
currently `scanning`/`analyzing`.  The global single-concurrency
invariant is therefore upheld only by the UI disabling the trigger while
`activeScanId` is set, not programmatically by the orchestrator. -/
theorem claim1_guard_is_per_item_only (st : ScannerState) (id : String)
    (opts : ScanOptions) (item : FileQueueItem)
    (hfind : getItem st id = some item)
    (hst : item.status ≠ ScanStatus.scanning) :
    (startScanSync st id opts).activeScanId = some id ∧
    (startScanSync st id opts).queue =
      updateItemStatus st.queue id ScanStatus.scanning 0 none
        (some (initialEta opts item.file)) := by
  unfold startScanSync
  rw [hfind]
  simp [hst]

/-- C1 (witness).  The amended theorem applies to `"idB"` in the state
where `"idA"` is already actively scanning. -/
theorem claim1_witness :
    (startScanSync stAfterA "idB" optsBalanced).activeScanId = some "idB" ∧
    (startScanSync stAfterA "idB" optsBalanced).queue =
      updateItemStatus stAfterA.queue "idB" ScanStatus.scanning 0 none
        (some (initialEta optsBalanced fileBeta)) :=
  claim1_guard_is_per_item_only stAfterA "idB" optsBalanced
    (newQueueItem "idB" fileBeta) rfl (by decide)

/-- C2.  For every scan in which the provider `analyze` call rejects
(`analyzeFile` resolves to an error — e.g. a missing API key or a failed
pre-computation, which run before its `try` block), the item ends in
status `error` with `progress = 0`, `eta = 0` and no result attached, a
failure notification is emitted, and the aggregate statistics (and the
scan history) are unchanged: `addScanToHistory` is never reached for that
item. -/
theorem claim2_provider_rejection (st : ScannerState) (id : String)
    (opts : ScanOptions) (email clientOk : Bool)
    (preOutcome : Except String String)
    (tryOutcome : Except String ProviderJson)
    (searchOutcome : Except String (List String)) (n1 n2 : ℕ)
    (item : FileQueueItem) (e : String)
    (hfind : getItem st id = some item)
    (hst : item.status ≠ ScanStatus.scanning)
    (hrej : analyzeFile clientOk preOutcome tryOutcome item.file =
      Except.error e) :
    (∃ item2,
      getItem (startScan st id opts email clientOk preOutcome tryOutcome
        searchOutcome n1 n2) id = some item2 ∧
      item2.status = ScanStatus.error ∧ item2.progress = 0 ∧
      item2.eta = some 0 ∧ item2.result = none) ∧
    (startScan st id opts email clientOk preOutcome tryOutcome
      searchOutcome n1 n2).notifications =
        failureMessage item.file :: st.notifications ∧
    (startScan st id opts email clientOk preOutcome tryOutcome
      searchOutcome n1 n2).stats = st.stats ∧
    (startScan st id opts email clientOk preOutcome tryOutcome
      searchOutcome n1 n2).history = st.history := by
  have hsome : ((midQueue st.queue id (initialEta opts item.file) n1
      n2).find? (fun i => i.id == id)).isSome = true := by
    rw [isSome_find?_midQueue]
    unfold getItem at hfind
    rw [hfind]
    rfl
  obtain ⟨y, hy⟩ := Option.isSome_iff_exists.mp hsome
  have hterm := find?_terminal
    (midQueue st.queue id (initialEta opts item.file) n1 n2) id y hy
    ScanStatus.error 0 none (some 0)
  unfold startScan
  rw [hfind]
  simp only [hst, if_false, if_neg hst]
  rw [hrej]
  exact ⟨⟨_, hterm, rfl, rfl, rfl, rfl⟩, rfl, rfl, rfl⟩

/-- C2 (witness).  With no API key configured (`getAiClient()` throws
before the `try` block), `analyzeFile` rejects, and a run over the
one-item state ends with the item in `error` and untouched statistics. -/
theorem claim2_witness :
    (∃ item2,
      getItem (startScan stOne "idA" optsBalanced true false
        (Except.ok "cafe") (Except.ok jsonMal) (Except.ok []) 0 0)
        "idA" = some item2 ∧
      item2.status = ScanStatus.error ∧ item2.progress = 0 ∧
      item2.eta = some 0 ∧ item2.result = none) ∧
    (startScan stOne "idA" optsBalanced true false (Except.ok "cafe")
      (Except.ok jsonMal) (Except.ok []) 0 0).notifications =
        failureMessage fileAlpha :: stOne.notifications ∧
    (startScan stOne "idA" optsBalanced true false (Except.ok "cafe")
      (Except.ok jsonMal) (Except.ok []) 0 0).stats = stOne.stats ∧
    (startScan stOne "idA" optsBalanced true false (Except.ok "cafe")
      (Except.ok jsonMal) (Except.ok []) 0 0).history = stOne.history :=
  claim2_provider_rejection stOne "idA" optsBalanced true false
    (Except.ok "cafe") (Except.ok jsonMal) (Except.ok []) 0 0
    (newQueueItem "idA" fileAlpha) "API Key not found" rfl (by decide) rfl

/-- C3.  Each `record` call (the statistics update of `addScanToHistory`)
increments `scanned` by exactly one, increments `threats` exactly when the
result's threat level is not `safe`, and recomputes
`health = max(0, 100 − (threats/scanned) × 100)` rounded to one decimal
place; from `scanned = 9, threats = 2`, recording a threat yields
`scanned = 10, threats = 3, health = 70.0`, and before any call the
health is `100`. -/
theorem claim3_record_stats (prev : AppStats) (r : ScanResult) :
    (recordStats prev r).scanned = prev.scanned + 1 ∧
    ((recordStats prev r).threats = prev.threats + 1 ↔
      r.threatLevel ≠ ThreatLevel.safe) ∧
    ((recordStats prev r).threats = prev.threats ↔
      r.threatLevel = ThreatLevel.safe) ∧
    (recordStats prev r).health =
      roundTenth (max 0 (100 -
        (((recordStats prev r).threats : ℚ) /
          ((recordStats prev r).scanned : ℚ)) * 100)) ∧
    recordStats { scanned := 9, threats := 2, health := 78 } malRes =
      { scanned := 10, threats := 3, health := 70 } ∧
    initialStats.health = 100 := by
  refine ⟨rfl, ?_, ?_, ?_, ?_, rfl⟩
  · by_cases h : r.threatLevel = ThreatLevel.safe <;> simp [recordStats, h]
  · by_cases h : r.threatLevel = ThreatLevel.safe <;> simp [recordStats, h]
  · by_cases h : r.threatLevel = ThreatLevel.safe <;> simp [recordStats, h]
  · have : ¬ malRes.threatLevel = ThreatLevel.safe := by decide
    simp [recordStats, this, roundTenth]
    norm_num [round_eq, max_def]

/-- C4 (counterexample).  The claim asserts that any result reaching a
completed item via the enrichment step has `cveMatches` absent whenever
`threatLevel = safe`.  The enrichment step, however, only ever *adds*
`cveMatches` (and only on non-safe verdicts); it never strips a
`cveMatches` field already present on a safe verdict, and the provider's
`responseSchema` declares `cveMatches` as an allowed property for any
threat level.  Feeding a schema-conforming safe verdict that carries
`cveMatches` through a full scan produces a completed item whose result
is `safe` *with* `cveMatches` present. -/
theorem claim4_counterexample :
    ((getItem (startScan stOne "idA" optsBalanced true true
        (Except.ok "cafe") (Except.ok jsonSafeCve) (Except.ok []) 0 0)
      "idA").map fun it =>
        (it.status, it.result.map fun r => (r.threatLevel, r.cveMatches)))
    = some (ScanStatus.completed,
        some (ThreatLevel.safe,
          some ["https://nvd.example/CVE-2024-0001"])) := by rfl

/-- C4 (amended).  When the verdict's threat level is `safe`, the
orchestrator's enrichment step passes the verdict through completely
unchanged — it never attaches `cveMatches` — so the completed item's
result is exactly the provider verdict, and its `cveMatches` is absent
precisely when the provider verdict carried none (absence is inherited
from the verdict, not enforced by the orchestrator). -/
theorem claim4_safe_passthrough (st : ScannerState) (id : String)
    (opts : ScanOptions) (email clientOk : Bool)
    (preOutcome : Except String String)
    (tryOutcome : Except String ProviderJson)
    (searchOutcome : Except String (List String)) (n1 n2 : ℕ)
    (item : FileQueueItem) (r0 : ScanResult)
    (hfind : getItem st id = some item)
    (hst : item.status ≠ ScanStatus.scanning)
    (hok : analyzeFile clientOk preOutcome tryOutcome item.file =
      Except.ok r0)
    (hsafe : r0.threatLevel = ThreatLevel.safe) :
    enrichResult clientOk searchOutcome r0 = Except.ok r0 ∧
    ∃ item2,
      getItem (startScan st id opts email clientOk preOutcome tryOutcome
        searchOutcome n1 n2) id = some item2 ∧
      item2.status = ScanStatus.completed ∧
      item2.result = some r0 := by
  have henrich : enrichResult clientOk searchOutcome r0 =
      Except.ok r0 := by
    unfold enrichResult
    simp [hsafe]
  have hsome : ((midQueue st.queue id (initialEta opts item.file) n1
      n2).find? (fun i => i.id == id)).isSome = true := by
    rw [isSome_find?_midQueue]
    unfold getItem at hfind
    rw [hfind]
    rfl
  obtain ⟨y, hy⟩ := Option.isSome_iff_exists.mp hsome
  have hterm := find?_terminal
    (midQueue st.queue id (initialEta opts item.file) n1 n2) id y hy
    ScanStatus.completed 100 (some r0) (some 0)
  refine ⟨henrich, ?_⟩
  unfold startScan
  rw [hfind]
  simp only [hst, if_neg hst]
  rw [hok]
  dsimp only
  rw [henrich]
  exact ⟨_, hterm, rfl, rfl⟩

/-- C4 (witness).  A safe provider verdict without `cveMatches` passes
through a full scan unchanged and completes. -/
theorem claim4_witness :
    enrichResult true (Except.ok []) safeScanRes =
      Except.ok safeScanRes ∧
    ∃ item2,
      getItem (startScan stOne "idA" optsBalanced true true
        (Except.ok "cafe") (Except.ok jsonSafe) (Except.ok []) 0 0)
        "idA" = some item2 ∧
      item2.status = ScanStatus.completed ∧
      item2.result = some safeScanRes :=
  claim4_safe_passthrough stOne "idA" optsBalanced true true
    (Except.ok "cafe") (Except.ok jsonSafe) (Except.ok []) 0 0
    (newQueueItem "idA" fileAlpha) safeScanRes rfl (by decide) rfl rfl

/-- C5 (counterexample).  The claim asserts that when the verdict is
non-safe and the correlation lookup fails or returns no links, the final
result has *no* `cveMatches` attached ("an empty sequence is never
attached").  But the failure fallback of `analyzeFile` itself carries
`cveMatches: []`, and the enrichment step preserves a pre-existing field
when it has nothing to attach: after a provider-call failure inside
`analyzeFile`'s `try` (verdict `UNKNOWN`, which is non-safe) and a failed
correlation lookup, the item completes with a result whose `cveMatches`
is the attached empty sequence `[]`, not an absent field. -/
theorem claim5_counterexample :
    ((getItem (startScan stOne "idA" optsBalanced true true
        (Except.ok "cafe") (Except.error "network down")
        (Except.error "search down") 0 0)
      "idA").map fun it =>
        (it.status, it.result.map fun r => (r.threatLevel, r.cveMatches)))
    = some (ScanStatus.completed,
        some (ThreatLevel.unknown, some ([] : List String))) := by rfl

/-- C5 (amended).  For every scan whose verdict is non-safe, if the
correlation lookup fails (its `generateContent` rejection is caught and
degraded to `[]`) or returns an empty sequence, the item still reaches
`completed` with the primary verdict intact and completely unchanged: the
enrichment step attaches nothing, so the final result's `cveMatches`
equals the verdict's own `cveMatches` field — absent exactly when the
verdict carried none (the `analyzeFile` failure fallback carries
`cveMatches = []`, which is preserved rather than normalized to
absence). -/
theorem claim5_lookup_failure_keeps_verdict (st : ScannerState)
    (id : String) (opts : ScanOptions) (email clientOk : Bool)
    (preOutcome : Except String String)
    (tryOutcome : Except String ProviderJson)
    (searchOutcome : Except String (List String)) (n1 n2 : ℕ)
    (item : FileQueueItem) (r0 : ScanResult)
    (hfind : getItem st id = some item)
    (hst : item.status ≠ ScanStatus.scanning)
    (hok : analyzeFile clientOk preOutcome tryOutcome item.file =
      Except.ok r0)
    (hns : r0.threatLevel ≠ ThreatLevel.safe)
    (hlookup : (∃ msg, searchOutcome = Except.error msg) ∨
      searchOutcome = Except.ok ([] : List String)) :
    enrichResult clientOk searchOutcome r0 = Except.ok r0 ∧
    ∃ item2,
      getItem (startScan st id opts email clientOk preOutcome tryOutcome
        searchOutcome n1 n2) id = some item2 ∧
      item2.status = ScanStatus.completed ∧
      item2.result = some r0 := by
  have hc : clientOk = true :=
    analyzeFile_ok_clientOk clientOk preOutcome tryOutcome item.file r0 hok
  subst hc
  have henrich : enrichResult true searchOutcome r0 = Except.ok r0 := by
    unfold enrichResult
    rw [if_neg hns]
    rcases hlookup with ⟨msg, hmsg⟩ | hemp
    · rw [hmsg]; rfl
    · rw [hemp]; rfl
  have hsome : ((midQueue st.queue id (initialEta opts item.file) n1
      n2).find? (fun i => i.id == id)).isSome = true := by
    rw [isSome_find?_midQueue]
    unfold getItem at hfind
    rw [hfind]
    rfl
  obtain ⟨y, hy⟩ := Option.isSome_iff_exists.mp hsome
  have hterm := find?_terminal
    (midQueue st.queue id (initialEta opts item.file) n1 n2) id y hy
    ScanStatus.completed 100 (some r0) (some 0)
  refine ⟨henrich, ?_⟩
  unfold startScan
  rw [hfind]
  simp only [hst, if_neg hst]
  rw [hok]
  dsimp only
  rw [henrich]
  exact ⟨_, hterm, rfl, rfl⟩

/-- C5 (witness).  A malicious verdict with an empty lookup result
completes with the verdict intact (its `cveMatches` stays absent because
the verdict itself carried none). -/
theorem claim5_witness :
    enrichResult true (Except.ok []) malScanRes = Except.ok malScanRes ∧
    ∃ item2,
      getItem (startScan stOne "idA" optsBalanced true true
        (Except.ok "cafe") (Except.ok jsonMal) (Except.ok []) 0 0)
        "idA" = some item2 ∧
      item2.status = ScanStatus.completed ∧
      item2.result = some malScanRes :=
  claim5_lookup_failure_keeps_verdict stOne "idA" optsBalanced true true
    (Except.ok "cafe") (Except.ok jsonMal) (Except.ok []) 0 0
    (newQueueItem "idA" fileAlpha) malScanRes rfl (by decide) rfl
    (by decide) (Or.inr rfl)

/-- C6.  The initial eta is the base duration selected by
`scanOptions.scanDepth` (`quick`→5s, `balanced`→15s, `deep`→45s), doubled
exactly when the file's byte size exceeds 2 MiB; a 3 MiB file scanned
with depth `deep` gets an initial eta of 90 seconds. -/
theorem claim6_initial_eta (opts : ScanOptions) (file : FileMeta) :
    baseTimeFor ScanDepth.quick = 5 ∧
    baseTimeFor ScanDepth.balanced = 15 ∧
    baseTimeFor ScanDepth.deep = 45 ∧
    initialEta opts file =
      (if file.size > 2 * 1024 * 1024 then baseTimeFor opts.scanDepth * 2
       else baseTimeFor opts.scanDepth) ∧
    (initialEta opts file = baseTimeFor opts.scanDepth * 2 ↔
      file.size > 2 * 1024 * 1024) ∧
    (initialEta opts file = baseTimeFor opts.scanDepth ↔
      ¬ file.size > 2 * 1024 * 1024) ∧
    initialEta optsDeep fileBig3MiB = 90 := by
  refine ⟨rfl, rfl, rfl, rfl, ?_, ?_, ?_⟩
  · by_cases hsz : file.size > 2 * 1024 * 1024 <;>
      cases hdepth : opts.scanDepth <;>
      simp [initialEta, baseTimeFor, hsz, hdepth]
  · by_cases hsz : file.size > 2 * 1024 * 1024 <;>
      cases hdepth : opts.scanDepth <;>
      simp [initialEta, baseTimeFor, hsz, hdepth]
  · norm_num [initialEta, baseTimeFor, optsDeep, fileBig3MiB]

/-- C7.  For every progress value `p` with `0 ≤ p < 90`, one simulator
tick produces `p + (90 − p) × 0.05`, which is strictly greater than `p`
and still strictly below 90 (progress is strictly monotone and never
reaches 90 by the tick rule alone); the same tick updates the eta to
`max(eta − 0.5, 2)`, which never drops below 2 while the item is
active. -/
theorem claim7_sim_tick (p eta : ℚ) (hp0 : 0 ≤ p) (hp90 : p < 90) :
    (simTick (p, eta)).1 = p + (90 - p) * (5 / 100) ∧
    p < (simTick (p, eta)).1 ∧
    (simTick (p, eta)).1 < 90 ∧
    (simTick (p, eta)).2 = max (eta - 1 / 2) 2 ∧
    2 ≤ (simTick (p, eta)).2 := by
  refine ⟨rfl, ?_, ?_, rfl, le_max_right _ _⟩
  · show p < p + (90 - p) * (5 / 100)
    nlinarith [hp0]
  · show p + (90 - p) * (5 / 100) < 90
    nlinarith

/-- C7 (witness).  The tick rule evaluated at `p = 0`, `eta = 15`. -/
theorem claim7_witness :
    (simTick (0, 15)).1 = 0 + (90 - 0) * (5 / 100) ∧
    (0 : ℚ) < (simTick (0, 15)).1 ∧
    (simTick (0, 15)).1 < 90 ∧
    (simTick (0, 15)).2 = max (15 - 1 / 2) 2 ∧
    (2 : ℚ) ≤ (simTick (0, 15)).2 :=
  claim7_sim_tick 0 15 (by norm_num) (by norm_num)

/-- C8.  Calling `startScan` on an item that is already in `SCANNING` is
a no-op: the guard returns before any mutation, so both the synchronous
prefix and a complete run leave the whole state (queue included)
unchanged. -/
theorem claim8_scanning_noop (st : ScannerState) (id : String)
    (opts : ScanOptions) (email clientOk : Bool)
    (preOutcome : Except String String)
    (tryOutcome : Except String ProviderJson)
    (searchOutcome : Except String (List String)) (n1 n2 : ℕ)
    (item : FileQueueItem)
    (hfind : getItem st id = some item)
    (hst : item.status = ScanStatus.scanning) :
    startScan st id opts email clientOk preOutcome tryOutcome
      searchOutcome n1 n2 = st ∧
    startScanSync st id opts = st := by
  constructor
  · unfold startScan
    rw [hfind]
    simp [hst]
  · unfold startScanSync
    rw [hfind]
    simp [hst]

/-- C8 (witness).  In `stScanning` the item `"idA"` is already scanning,
and `startScan("idA")` leaves the state untouched. -/
theorem claim8_witness :
    startScan stScanning "idA" optsBalanced true true (Except.ok "cafe")
      (Except.ok jsonMal) (Except.ok []) 0 0 = stScanning ∧
    startScanSync stScanning "idA" optsBalanced = stScanning :=
  claim8_scanning_noop stScanning "idA" optsBalanced true true
    (Except.ok "cafe") (Except.ok jsonMal) (Except.ok []) 0 0
    { id := "idA", file := fileAlpha, status := ScanStatus.scanning,
      progress := 10, eta := some 12, result := none } rfl rfl

/-- C9.  `updateItem(id, fields)` (the `updateItemStatus` map of
`Scanner.tsx`) rewrites the named fields of the item matched by id and
nothing else: the output queue is pointwise the input queue — same length,
same order — with every non-matching item passed through unchanged
(including its `id` and `file`) and the matching item carrying exactly
the given `status`/`progress`/`result`/`eta`; an unknown id leaves the
whole queue unchanged and never fails. -/
theorem claim9_update_item (q : List FileQueueItem) (id : String)
    (s : ScanStatus) (p : ℚ) (r : Option ScanResult) (e : Option ℚ) :
    List.Forall₂ (fun old new =>
        new = if old.id = id then
          { old with status := s, progress := p, result := r, eta := e }
        else old)
      q (updateItemStatus q id s p r e) ∧
    (updateItemStatus q id s p r e).length = q.length ∧
    ((∀ it ∈ q, it.id ≠ id) → updateItemStatus q id s p r e = q) := by
  refine ⟨?_, ?_, ?_⟩
  · unfold updateItemStatus
    rw [List.forall₂_map_right_iff]
    rw [List.forall₂_same]
    intro x _
    rfl
  · unfold updateItemStatus
    exact List.length_map _ _
  · intro h
    unfold updateItemStatus
    induction q with
    | nil => rfl
    | cons a t ih =>
      have ha : a.id ≠ id := h a (by simp)
      simp only [List.map_cons, if_neg ha]
      rw [ih fun it hit => h it (by simp [hit])]

/-- C9 (witness).  Updating an id that matches no queued item is a
silent no-op on a concrete two-item queue. -/
theorem claim9_witness :
    updateItemStatus stTwo.queue "idZ" ScanStatus.error 0 none none =
      stTwo.queue :=
  (claim9_update_item stTwo.queue "idZ" ScanStatus.error 0 none none).2.2
    (by decide)

/-- C10 (implicit claim).  Once the pre-analysis steps have succeeded
(`getAiClient()` returned a client and the hashing/header steps
resolved), `analyzeFile` never rejects: every failure inside its `try`
block resolves with the fallback `ScanResult` (`threatLevel = UNKNOWN`,
`confidenceScore = 0`, empty `vulnerabilities`, `cveMatches = []`), so
the orchestrator's `catch` is not reached for provider-side failures —
the item completes, and the unknown verdict is counted as a threat by
the statistics update. -/
theorem claim10_fallback_completes (st : ScannerState) (id : String)
    (opts : ScanOptions) (email : Bool) (hash tryErr : String)
    (searchOutcome : Except String (List String)) (n1 n2 : ℕ)
    (item : FileQueueItem)
    (hfind : getItem st id = some item)
    (hst : item.status ≠ ScanStatus.scanning) :
    (∀ tryOutcome : Except String ProviderJson, ∃ res,
      analyzeFile true (Except.ok hash) tryOutcome item.file =
        Except.ok res) ∧
    analyzeFile true (Except.ok hash) (Except.error tryErr) item.file =
      Except.ok (fallbackResult item.file hash tryErr) ∧
    (fallbackResult item.file hash tryErr).threatLevel =
      ThreatLevel.unknown ∧
    (fallbackResult item.file hash tryErr).confidenceScore = 0 ∧
    (fallbackResult item.file hash tryErr).vulnerabilities = [] ∧
    (fallbackResult item.file hash tryErr).cveMatches = some [] ∧
    (∃ item2,
      getItem (startScan st id opts email true (Except.ok hash)
        (Except.error tryErr) searchOutcome n1 n2) id = some item2 ∧
      item2.status = ScanStatus.completed) ∧
    (startScan st id opts email true (Except.ok hash)
      (Except.error tryErr) searchOutcome n1 n2).stats.scanned =
        st.stats.scanned + 1 ∧
    (startScan st id opts email true (Except.ok hash)
      (Except.error tryErr) searchOutcome n1 n2).stats.threats =
        st.stats.threats + 1 := by
  have hana : analyzeFile true (Except.ok hash) (Except.error tryErr)
      item.file = Except.ok (fallbackResult item.file hash tryErr) := rfl
  have hflb : (fallbackResult item.file hash tryErr).threatLevel =
      ThreatLevel.unknown := rfl
  obtain ⟨links, hlinks⟩ :
      ∃ links, checkKnownVulnerabilities true searchOutcome =
        Except.ok links := by
    cases searchOutcome with
    | error e => exact ⟨[], rfl⟩
    | ok l => exact ⟨l, rfl⟩
  obtain ⟨r2, hr2⟩ :
      ∃ r2, enrichResult true searchOutcome
        (fallbackResult item.file hash tryErr) = Except.ok r2 := by
    unfold enrichResult
    rw [if_neg (by rw [hflb]; decide), hlinks]
    dsimp only
    by_cases hl : links.length > 0
    · exact ⟨_, by rw [if_pos hl]⟩
    · exact ⟨_, by rw [if_neg hl]⟩
  have hr2level : r2.threatLevel = ThreatLevel.unknown :=
    (enrichResult_threatLevel true searchOutcome _ r2 hr2).trans hflb
  have hsome : ((midQueue st.queue id (initialEta opts item.file) n1
      n2).find? (fun i => i.id == id)).isSome = true := by
    rw [isSome_find?_midQueue]
    unfold getItem at hfind
    rw [hfind]
    rfl
  obtain ⟨y, hy⟩ := Option.isSome_iff_exists.mp hsome
  have hterm := find?_terminal
    (midQueue st.queue id (initialEta opts item.file) n1 n2) id y hy
    ScanStatus.completed 100 (some r2) (some 0)
  refine ⟨fun tryOutcome => ?_, hana, hflb, rfl, rfl, rfl, ?_, ?_, ?_⟩
  · cases tryOutcome with
    | error e => exact ⟨_, rfl⟩
    | ok json => exact ⟨_, rfl⟩
  all_goals
    unfold startScan
    rw [hfind]
    simp only [hst, if_neg hst]
    rw [hana]
    dsimp only
    rw [hr2]
  · exact ⟨_, hterm, rfl⟩
  · rfl
  · show (recordStats st.stats r2).threats = st.stats.threats + 1
    simp [recordStats, hr2level]

/-- C10 (witness).  A provider failure inside the `try` block, with the
pre-analysis already succeeded, leads to a completed item and a threat
recorded, on the concrete one-item state. -/
theorem claim10_witness :
    (∀ tryOutcome : Except String ProviderJson, ∃ res,
      analyzeFile true (Except.ok "cafe") tryOutcome fileAlpha =
        Except.ok res) ∧
    analyzeFile true (Except.ok "cafe") (Except.error "timeout")
      fileAlpha = Except.ok (fallbackResult fileAlpha "cafe" "timeout") ∧
    (fallbackResult fileAlpha "cafe" "timeout").threatLevel =
      ThreatLevel.unknown ∧
    (fallbackResult fileAlpha "cafe" "timeout").confidenceScore = 0 ∧
    (fallbackResult fileAlpha "cafe" "timeout").vulnerabilities = [] ∧
    (fallbackResult fileAlpha "cafe" "timeout").cveMatches = some [] ∧
    (∃ item2,
      getItem (startScan stOne "idA" optsBalanced true true
        (Except.ok "cafe") (Except.error "timeout") (Except.ok []) 0 0)
        "idA" = some item2 ∧
      item2.status = ScanStatus.completed) ∧
    (startScan stOne "idA" optsBalanced true true (Except.ok "cafe")
      (Except.error "timeout") (Except.ok []) 0 0).stats.scanned =
        stOne.stats.scanned + 1 ∧
    (startScan stOne "idA" optsBalanced true true (Except.ok "cafe")
      (Except.error "timeout") (Except.ok []) 0 0).stats.threats =
        stOne.stats.threats + 1 :=
  claim10_fallback_completes stOne "idA" optsBalanced true "cafe"
    "timeout" (Except.ok []) 0 0 (newQueueItem "idA" fileAlpha) rfl
    (by decide)

end IDR
